import Mathlib

/-
Verification of `lib/streamlit/server/server_util.py`.

The file embeds the two utilities of that module — the message-size guard
(`serialize_forward_msg`, `_convert_msg_to_exception_msg`, `MESSAGE_SIZE_LIMIT`)
and the CORS origin validator (`is_url_from_allowed_origins`,
`_get_server_address_if_manually_set`, `_get_s3_url_host_if_manually_set`) —
as executable Lean definitions, together with models of the external
collaborators the module imports (`streamlit.config`, `streamlit.util`,
the protobuf `ForwardMsg`, and the exception marshaller), which are not part
of this source tree and are therefore modelled from the specification.
-/

namespace StreamlitServerUtil

/-- Serialized protobuf output, as a sequence of byte values. -/
abbrev Bytes := List Nat

/-- Modelled from the spec: the structured exception record that the external
exception-marshalling collaborator writes into a message's error slot
("type name, message text"). -/
structure ExceptionProto where
  type_name : String
  message : String
deriving DecidableEq

/-- Modelled from the spec: the content carried by a message's `delta` besides
the identifier — either cleared/empty, an arbitrary data payload, or the
error record produced by exception marshalling (`delta.new_element.exception`). -/
inductive DeltaContent where
  | empty : DeltaContent
  | blob (payload : Bytes) : DeltaContent
  | exception (e : ExceptionProto) : DeltaContent
deriving DecidableEq

/-- Modelled from the spec: the `delta` sub-message, holding the nested
identifier field `delta.id` and the remaining content. -/
structure Delta where
  id : Bytes
  content : DeltaContent
deriving DecidableEq

/-- Modelled from the spec: the opaque, serializable `ForwardMsg` protocol
object. It is external to this module; only the fields the module touches
(`delta.id` and the error slot) are represented, the rest of the payload is
abstracted as `DeltaContent`. -/
structure ForwardMsg where
  delta : Delta
deriving DecidableEq

/-- Modelled from the spec: a length-prefixed chunk, the building block of the
injective serialization model for the external protobuf encoder. -/
def encodeChunk (b : Bytes) : Bytes := b.length :: b

/-- Modelled from the spec: string serialization (chunk of character codes). -/
def encodeString (s : String) : Bytes := encodeChunk (s.data.map Char.toNat)

/-- Modelled from the spec: serialization of the message content, tagged by
variant so that deserialization is exact. -/
def encodeContent : DeltaContent → Bytes
  | .empty => [0]
  | .blob p => 1 :: encodeChunk p
  | .exception e => 2 :: (encodeString e.type_name ++ encodeString e.message)

/-- Modelled from the spec: `msg.SerializeToString()` of the external protobuf
object — identifier chunk followed by the encoded content. -/
def ForwardMsg.SerializeToString (m : ForwardMsg) : Bytes :=
  encodeChunk m.delta.id ++ encodeContent m.delta.content

/-- Modelled from the spec: `msg.Clear()` resets every field of the message to
its default (empty) value. -/
def ForwardMsg.Clear (_m : ForwardMsg) : ForwardMsg := ⟨⟨[], .empty⟩⟩

/-- Modelled from the spec: a Python `RuntimeError(text)` value, carrying its
message text. -/
structure PyRuntimeError where
  message : String
deriving DecidableEq

/-- Modelled from the spec: `exception_proto.marshall` populates the error slot
with a structured representation of the error — its type name and message. -/
def marshall_exception (e : PyRuntimeError) : ExceptionProto :=
  ⟨"RuntimeError", e.message⟩

/-- `MESSAGE_SIZE_LIMIT = 5 * 10e7` from the source; `10e7` is the float
`100000000.0`, so the constant's exact numeric value is `5 * 100000000`. -/
def MESSAGE_SIZE_LIMIT : Nat := 5 * 100000000

/-- `_convert_msg_to_exception_msg(msg, e)`: save `msg.delta.id`, clear the
message, restore the identifier, and marshall the error into
`msg.delta.new_element.exception`. In-place mutation is embedded as returning
the post-state of the message. -/
def _convert_msg_to_exception_msg (msg : ForwardMsg) (e : PyRuntimeError) : ForwardMsg :=
  let delta_id := msg.delta.id
  let m1 := msg.Clear
  let m2 : ForwardMsg := ⟨⟨delta_id, m1.delta.content⟩⟩
  ⟨⟨m2.delta.id, .exception (marshall_exception e)⟩⟩

/-- `serialize_forward_msg(msg)`: serialize; if the byte length exceeds
`MESSAGE_SIZE_LIMIT`, convert the message to an exception message carrying
`RuntimeError('Data too large')` and re-serialize. Returns the bytes together
with the post-state of the (possibly mutated) message. -/
def serialize_forward_msg (msg : ForwardMsg) : Bytes × ForwardMsg :=
  let msg_str := msg.SerializeToString
  if msg_str.length > MESSAGE_SIZE_LIMIT then
    let msg2 := _convert_msg_to_exception_msg msg (PyRuntimeError.mk "Data too large")
    (msg2.SerializeToString, msg2)
  else
    (msg_str, msg)

/-- Modelled from the spec: exact inverse of `encodeChunk` — read the length
prefix and split off that many bytes. -/
def decodeChunk : Bytes → Option (Bytes × Bytes)
  | [] => none
  | n :: rest => if n ≤ rest.length then some (rest.take n, rest.drop n) else none

/-- Modelled from the spec: inverse of `encodeString` on character codes. -/
def decodeString (b : Bytes) : String := String.mk (b.map Char.ofNat)

/-- Modelled from the spec: inverse of `encodeContent`. -/
def decodeContent : Bytes → Option DeltaContent
  | 0 :: rest => if rest = [] then some .empty else none
  | 1 :: rest =>
    match decodeChunk rest with
    | some (p, rest2) => if rest2 = [] then some (.blob p) else none
    | none => none
  | 2 :: rest =>
    match decodeChunk rest with
    | some (t, rest2) =>
      match decodeChunk rest2 with
      | some (m, rest3) =>
        if rest3 = [] then some (.exception ⟨decodeString t, decodeString m⟩) else none
      | none => none
    | none => none
  | _ => none

/-- Modelled from the spec: deserialization of a `ForwardMsg`, the inverse of
`ForwardMsg.SerializeToString`. -/
def deserialize (b : Bytes) : Option ForwardMsg :=
  match decodeChunk b with
  | some (idb, rest) =>
    match decodeContent rest with
    | some c => some ⟨⟨idb, c⟩⟩
    | none => none
  | none => none

/-- Modelled from the spec: the slice of the external configuration store that
this module reads. For each of the three string options, `some v` means the
option was explicitly (manually) set by the user to `v`; `none` means it was
never explicitly set, in which case the option's value is absent. -/
structure Config where
  server_enableCORS : Bool
  browser_serverAddress : Option String
  s3_url : Option String
  s3_bucket : Option String
deriving DecidableEq

/-- Modelled from the spec: the external environment the validator consults —
the configuration store, `util.get_hostname` (total, `none` on a malformed URL
so extraction never throws past this component), and the best-effort results of
`util.get_internal_ip` / `util.get_external_ip` (`none` on failure). -/
structure Env where
  cfg : Config
  get_hostname : String → Option String
  get_internal_ip : Option String
  get_external_ip : Option String

/-- `_get_server_address_if_manually_set()`: when `browser.serverAddress` was
manually set, return the hostname of its value, otherwise `None`. -/
def _get_server_address_if_manually_set (env : Env) : Option String :=
  match env.cfg.browser_serverAddress with
  | some addr => env.get_hostname addr
  | none => none

/-- `_get_s3_url_host_if_manually_set()`: when `s3.url` was manually set,
return the hostname of its value, otherwise `None`. -/
def _get_s3_url_host_if_manually_set (env : Env) : Option String :=
  match env.cfg.s3_url with
  | some u => env.get_hostname u
  | none => none

/-- The five lazy producers appearing in the `allowed_domains` list, by name. -/
inductive Producer where
  | serverAddress : Producer
  | s3UrlHost : Producer
  | internalIp : Producer
  | externalIp : Producer
  | s3Bucket : Producer
deriving DecidableEq

/-- Invoking a lazy producer from the `allowed_domains` list. `s3Bucket` is the
source's `lambda: config.get_option('s3.bucket')`. -/
def runProducer (env : Env) : Producer → Option String
  | .serverAddress => _get_server_address_if_manually_set env
  | .s3UrlHost => _get_s3_url_host_if_manually_set env
  | .internalIp => env.get_internal_ip
  | .externalIp => env.get_external_ip
  | .s3Bucket => env.cfg.s3_bucket

/-- An entry of the `allowed_domains` list: a literal hostname string, or a
zero-argument producer (the source's `util.is_function` test distinguishes the
two; here the distinction is the constructor tag). -/
inductive Candidate where
  | lit (s : String) : Candidate
  | producer (p : Producer) : Candidate
deriving DecidableEq

/-- The `allowed_domains` list of `is_url_from_allowed_origins`, in source
order: the three localhost literals, then the two manually-set configuration
producers, then internal IP, external IP, and the `s3.bucket` lambda. -/
def allowed_domains : List Candidate :=
  [.lit "localhost", .lit "0.0.0.0", .lit "127.0.0.1",
   .producer .serverAddress, .producer .s3UrlHost,
   .producer .internalIp, .producer .externalIp, .producer .s3Bucket]

/-- The producers contained in a candidate list, in order. -/
def producersOf : List Candidate → List Producer
  | [] => []
  | .lit _ :: rest => producersOf rest
  | .producer p :: rest => p :: producersOf rest

/-- The `for allowed_domain in allowed_domains` loop: call a producer when the
entry is a function, skip absent values, return `True` on the first exact match
with the extracted hostname, `False` when the list is exhausted. The second
component instruments the loop with the list of producers actually invoked, in
invocation order. -/
def checkDomains (env : Env) (hostname : Option String) : List Candidate → Bool × List Producer
  | [] => (false, [])
  | .lit s :: rest =>
    if hostname = some s then (true, [])
    else
      let r := checkDomains env hostname rest
      (r.1, r.2)
  | .producer p :: rest =>
    match runProducer env p with
    | none =>
      let r := checkDomains env hostname rest
      (r.1, p :: r.2)
    | some d =>
      if hostname = some d then (true, [p])
      else
        let r := checkDomains env hostname rest
        (r.1, p :: r.2)

/-- `is_url_from_allowed_origins(url)` generalized over the candidate list (the
source fixes it to `allowed_domains`): when `server.enableCORS` is false allow
everything, otherwise extract the hostname and scan the list. -/
def is_url_from_allowed_origins_with (env : Env) (url : String) (domains : List Candidate) : Bool :=
  if !env.cfg.server_enableCORS then true
  else (checkDomains env (env.get_hostname url) domains).1

/-- `is_url_from_allowed_origins(url)` as in the source, on `allowed_domains`. -/
def is_url_from_allowed_origins (env : Env) (url : String) : Bool :=
  is_url_from_allowed_origins_with env url allowed_domains

/-- The producers invoked during one call of `is_url_from_allowed_origins`
(none when CORS is disabled, since the candidate loop is never entered). -/
def origin_check_invoked (env : Env) (url : String) : List Producer :=
  if !env.cfg.server_enableCORS then []
  else (checkDomains env (env.get_hostname url) allowed_domains).2

/-- A candidate's value as seen by the loop body: the literal itself, or the
producer's result. -/
def candValue (env : Env) : Candidate → Option String
  | .lit s => some s
  | .producer p => runProducer env p

/-- A candidate matches when its value is present and equals the extracted
hostname (the loop body's skip-absent-then-compare step, as a predicate). -/
def candMatches (env : Env) (hostname : Option String) (c : Candidate) : Bool :=
  match candValue env c with
  | none => false
  | some d => decide (hostname = some d)

/-- An environment with `server.enableCORS` off and a hostile remote origin. -/
def envCorsOff : Env :=
  ⟨⟨false, none, none, none⟩, fun _ => some "evil.example.com", none, none⟩

/-- A CORS-enabled environment in which every URL parses to host `localhost`. -/
def envLocalhost : Env :=
  ⟨⟨true, none, none, none⟩, fun _ => some "localhost", none, none⟩

/-- A CORS-enabled environment with `browser.serverAddress` manually set, whose
hostname matches the checked URL's hostname; internal/external IP lookups
would succeed but are further down the candidate list. -/
def envServerAddr : Env :=
  ⟨⟨true, some "http://my-host", none, none⟩, fun _ => some "my-host",
   some "10.0.0.5", some "34.1.2.3"⟩

/-- A CORS-enabled environment with nothing configured, in which hostname
extraction always fails (malformed URLs). -/
def envNoHost : Env :=
  ⟨⟨true, none, none, none⟩, fun _ => none, none, none⟩

/-- A small message, comfortably within the size limit. -/
def msgSmall : ForwardMsg := ⟨⟨[7], .blob [1, 2, 3]⟩⟩

/-- A pathological message: the identifier alone is larger than the limit. -/
def msgBigId : ForwardMsg := ⟨⟨List.replicate 500000001 0, .empty⟩⟩

/-- An oversized message of the ordinary kind: small identifier, huge payload. -/
def msgBigBlob : ForwardMsg := ⟨⟨[7], .blob (List.replicate 500000001 0)⟩⟩

end StreamlitServerUtil

namespace StreamlitServerUtil

theorem encodeChunk_length (b : Bytes) : (encodeChunk b).length = b.length + 1 := by
  simp [encodeChunk]

theorem SerializeToString_length (id : Bytes) (c : DeltaContent) :
    (ForwardMsg.SerializeToString ⟨⟨id, c⟩⟩).length = id.length + 1 + (encodeContent c).length := by
  simp [ForwardMsg.SerializeToString, encodeChunk]
  omega

theorem errContentLength :
    (encodeContent (.exception ⟨"RuntimeError", "Data too large"⟩)).length = 29 := by decide

theorem convert_msg_eq (msg : ForwardMsg) (e : PyRuntimeError) :
    _convert_msg_to_exception_msg msg e =
      ⟨⟨msg.delta.id, .exception ⟨"RuntimeError", e.message⟩⟩⟩ := rfl

theorem serialize_forward_msg_oversized (msg : ForwardMsg)
    (h : msg.SerializeToString.length > MESSAGE_SIZE_LIMIT) :
    serialize_forward_msg msg =
      ((_convert_msg_to_exception_msg msg ⟨"Data too large"⟩).SerializeToString,
       _convert_msg_to_exception_msg msg ⟨"Data too large"⟩) := by
  unfold serialize_forward_msg
  rw [if_pos h]

theorem decodeChunk_encodeChunk (b t : Bytes) : decodeChunk (encodeChunk b ++ t) = some (b, t) := by
  show decodeChunk (b.length :: (b ++ t)) = some (b, t)
  simp [decodeChunk, List.take_left, List.drop_left, Nat.le_add_right]

theorem ofNat_comp_toNat : Char.ofNat ∘ Char.toNat = id := funext Char.ofNat_toNat

theorem decodeString_encodeString (s : String) : decodeString (s.data.map Char.toNat) = s := by
  show String.mk ((s.data.map Char.toNat).map Char.ofNat) = s
  rw [List.map_map, ofNat_comp_toNat, List.map_id]

theorem decodeContent_encodeContent (c : DeltaContent) : decodeContent (encodeContent c) = some c := by
  cases c with
  | empty => rfl
  | blob p =>
    have h := decodeChunk_encodeChunk p []
    rw [List.append_nil] at h
    simp [decodeContent, encodeContent, h]
  | exception e =>
    have h1 := decodeChunk_encodeChunk (e.type_name.data.map Char.toNat)
      (encodeChunk (e.message.data.map Char.toNat))
    have h2 := decodeChunk_encodeChunk (e.message.data.map Char.toNat) []
    rw [List.append_nil] at h2
    simp [decodeContent, encodeContent, encodeString, h1, h2, decodeString_encodeString]

theorem deserialize_SerializeToString (m : ForwardMsg) : deserialize m.SerializeToString = some m := by
  simp [deserialize, ForwardMsg.SerializeToString, decodeChunk_encodeChunk,
    decodeContent_encodeContent]

theorem msgBigId_len : msgBigId.SerializeToString.length = 500000003 := by
  show (ForwardMsg.SerializeToString ⟨⟨List.replicate 500000001 0, .empty⟩⟩).length = 500000003
  rw [SerializeToString_length, List.length_replicate]
  show 500000001 + 1 + (1 : Nat) = 500000003
  norm_num

theorem msgBigId_conv_len :
    (_convert_msg_to_exception_msg msgBigId ⟨"Data too large"⟩).SerializeToString.length
      = 500000031 := by
  rw [convert_msg_eq]
  show (ForwardMsg.SerializeToString
      ⟨⟨List.replicate 500000001 0, .exception ⟨"RuntimeError", "Data too large"⟩⟩⟩).length
    = 500000031
  rw [SerializeToString_length, List.length_replicate, errContentLength]

theorem blobContentLength (p : Bytes) : (encodeContent (.blob p)).length = p.length + 2 := by
  simp [encodeContent, encodeChunk]

theorem msgBigBlob_len : msgBigBlob.SerializeToString.length = 500000005 := by
  show (ForwardMsg.SerializeToString ⟨⟨[7], .blob (List.replicate 500000001 0)⟩⟩).length
    = 500000005
  rw [SerializeToString_length, blobContentLength, List.length_replicate]
  norm_num

/-- C1 (counterexample): the claim "for every oversized message the returned
bytes are at most (in fact strictly smaller than) the original serialization"
fails at `msgBigId`, whose identifier alone exceeds the limit: the message is
oversized, yet the re-serialized exception message is strictly larger than the
original serialization. -/
theorem serialize_oversized_shrinks_counterexample :
    msgBigId.SerializeToString.length > MESSAGE_SIZE_LIMIT ∧
    ¬ (serialize_forward_msg msgBigId).1.length ≤ msgBigId.SerializeToString.length := by
  have h1 : msgBigId.SerializeToString.length > MESSAGE_SIZE_LIMIT := by
    rw [msgBigId_len]
    norm_num [MESSAGE_SIZE_LIMIT]
  refine ⟨h1, ?_⟩
  rw [serialize_forward_msg_oversized msgBigId h1]
  show ¬ (_convert_msg_to_exception_msg msgBigId ⟨"Data too large"⟩).SerializeToString.length
      ≤ msgBigId.SerializeToString.length
  rw [msgBigId_conv_len, msgBigId_len]
  norm_num

/-- C1 (amended): for every message whose serialization exceeds
`MESSAGE_SIZE_LIMIT`, the bytes returned by `serialize_forward_msg`
deserialize to a message carrying the original `delta.id` and an error-kind
payload with type `RuntimeError` and message text "Data too large"; and the
returned bytes are strictly smaller than the original serialization whenever
the encoded identifier plus the fixed 29-byte error record fits within the
limit (the returned bytes can exceed the original exactly when the identifier
itself is oversized, as the counterexample shows). -/
theorem serialize_oversized_amended (msg : ForwardMsg)
    (h : msg.SerializeToString.length > MESSAGE_SIZE_LIMIT) :
    deserialize (serialize_forward_msg msg).1 =
      some ⟨⟨msg.delta.id, .exception ⟨"RuntimeError", "Data too large"⟩⟩⟩ ∧
    ((encodeChunk msg.delta.id).length + 29 ≤ MESSAGE_SIZE_LIMIT →
      (serialize_forward_msg msg).1.length < msg.SerializeToString.length) := by
  rw [serialize_forward_msg_oversized msg h, convert_msg_eq]
  constructor
  · exact deserialize_SerializeToString _
  · intro hid
    have e2 : msg.SerializeToString.length
        = msg.delta.id.length + 1 + (encodeContent msg.delta.content).length :=
      SerializeToString_length msg.delta.id msg.delta.content
    have e4 := encodeChunk_length msg.delta.id
    show (ForwardMsg.SerializeToString
        ⟨⟨msg.delta.id, .exception ⟨"RuntimeError", "Data too large"⟩⟩⟩).length
      < msg.SerializeToString.length
    rw [SerializeToString_length, errContentLength, e2]
    rw [e2] at h
    rw [e4] at hid
    omega

/-- C1 (witness): the amended theorem applied to a concrete oversized message
with a small identifier and a huge payload. -/
theorem serialize_oversized_amended_witness :
    msgBigBlob.SerializeToString.length > MESSAGE_SIZE_LIMIT ∧
    (encodeChunk msgBigBlob.delta.id).length + 29 ≤ MESSAGE_SIZE_LIMIT ∧
    deserialize (serialize_forward_msg msgBigBlob).1 =
      some ⟨⟨msgBigBlob.delta.id, .exception ⟨"RuntimeError", "Data too large"⟩⟩⟩ ∧
    (serialize_forward_msg msgBigBlob).1.length < msgBigBlob.SerializeToString.length := by
  have h1 : msgBigBlob.SerializeToString.length > MESSAGE_SIZE_LIMIT := by
    rw [msgBigBlob_len]
    norm_num [MESSAGE_SIZE_LIMIT]
  have h2 : (encodeChunk msgBigBlob.delta.id).length + 29 ≤ MESSAGE_SIZE_LIMIT := by
    show (encodeChunk [7]).length + 29 ≤ MESSAGE_SIZE_LIMIT
    norm_num [encodeChunk, MESSAGE_SIZE_LIMIT]
  have h3 := serialize_oversized_amended msgBigBlob h1
  exact ⟨h1, h2, h3.1, h3.2 h2⟩

/-- C2: for every message whose serialized size is at most `MESSAGE_SIZE_LIMIT`,
`serialize_forward_msg` returns exactly `msg.SerializeToString()` and leaves
the message unmodified. -/
theorem serialize_within_limit (msg : ForwardMsg)
    (h : msg.SerializeToString.length ≤ MESSAGE_SIZE_LIMIT) :
    serialize_forward_msg msg = (msg.SerializeToString, msg) := by
  unfold serialize_forward_msg
  rw [if_neg (Nat.not_lt.mpr h)]

/-- C2 (witness): the theorem applied to a concrete small message. -/
theorem serialize_within_limit_witness :
    msgSmall.SerializeToString.length ≤ MESSAGE_SIZE_LIMIT ∧
    serialize_forward_msg msgSmall = (msgSmall.SerializeToString, msgSmall) := by
  have h : msgSmall.SerializeToString.length ≤ MESSAGE_SIZE_LIMIT := by decide
  exact ⟨h, serialize_within_limit msgSmall h⟩

/-- C3: the constant `MESSAGE_SIZE_LIMIT = 5 * 10e7` evaluates to 500,000,000,
not the 50,000,000 that the claim (and the source's own "50MB" comment)
states. -/
theorem message_size_limit_value :
    MESSAGE_SIZE_LIMIT = 500000000 ∧ MESSAGE_SIZE_LIMIT ≠ 50000000 := by
  constructor
  · norm_num [MESSAGE_SIZE_LIMIT]
  · norm_num [MESSAGE_SIZE_LIMIT]

/-- C10: when even the error-converted message serializes to more than
`MESSAGE_SIZE_LIMIT` bytes, `serialize_forward_msg` performs exactly one
conversion and returns the still-oversized re-serialized bytes of that single
conversion — it never converts a second time, never loops, and never fails. -/
theorem serialize_still_oversized_single_conversion (msg : ForwardMsg)
    (h1 : msg.SerializeToString.length > MESSAGE_SIZE_LIMIT)
    (h2 : (_convert_msg_to_exception_msg msg ⟨"Data too large"⟩).SerializeToString.length
        > MESSAGE_SIZE_LIMIT) :
    serialize_forward_msg msg =
      ((_convert_msg_to_exception_msg msg ⟨"Data too large"⟩).SerializeToString,
       _convert_msg_to_exception_msg msg ⟨"Data too large"⟩) ∧
    (serialize_forward_msg msg).1.length > MESSAGE_SIZE_LIMIT := by
  have e := serialize_forward_msg_oversized msg h1
  refine ⟨e, ?_⟩
  rw [e]
  exact h2

/-- C10 (witness): the theorem applied to `msgBigId`, whose identifier keeps
even the converted message over the limit. -/
theorem serialize_still_oversized_single_conversion_witness :
    msgBigId.SerializeToString.length > MESSAGE_SIZE_LIMIT ∧
    (_convert_msg_to_exception_msg msgBigId ⟨"Data too large"⟩).SerializeToString.length
      > MESSAGE_SIZE_LIMIT ∧
    serialize_forward_msg msgBigId =
      ((_convert_msg_to_exception_msg msgBigId ⟨"Data too large"⟩).SerializeToString,
       _convert_msg_to_exception_msg msgBigId ⟨"Data too large"⟩) ∧
    (serialize_forward_msg msgBigId).1.length > MESSAGE_SIZE_LIMIT := by
  have h1 : msgBigId.SerializeToString.length > MESSAGE_SIZE_LIMIT := by
    rw [msgBigId_len]
    norm_num [MESSAGE_SIZE_LIMIT]
  have h2 : (_convert_msg_to_exception_msg msgBigId ⟨"Data too large"⟩).SerializeToString.length
      > MESSAGE_SIZE_LIMIT := by
    rw [msgBigId_conv_len]
    norm_num [MESSAGE_SIZE_LIMIT]
  have h3 := serialize_still_oversized_single_conversion msgBigId h1 h2
  exact ⟨h1, h2, h3.1, h3.2⟩

theorem checkDomains_fst (env : Env) (hn : Option String) (l : List Candidate) :
    (checkDomains env hn l).1 = l.any (candMatches env hn) := by
  induction l with
  | nil => rfl
  | cons c rest ih =>
    cases c with
    | lit s =>
      by_cases hm : hn = some s
      · simp [checkDomains, candMatches, candValue, hm]
      · simp [checkDomains, candMatches, candValue, hm, ih]
    | producer p =>
      cases hrp : runProducer env p with
      | none => simp [checkDomains, hrp, candMatches, candValue, ih]
      | some d =>
        by_cases hm : hn = some d
        · simp [checkDomains, hrp, candMatches, candValue, hm]
        · simp [checkDomains, hrp, candMatches, candValue, hm, ih]

theorem candMatches_none (env : Env) (c : Candidate) : candMatches env none c = false := by
  cases hv : candValue env c <;> simp [candMatches, hv]

theorem checkDomains_none_false (env : Env) (l : List Candidate) :
    (checkDomains env none l).1 = false := by
  rw [checkDomains_fst]
  simp [List.any_eq, candMatches_none]

theorem producersOf_append (a b : List Candidate) :
    producersOf (a ++ b) = producersOf a ++ producersOf b := by
  induction a with
  | nil => simp [producersOf]
  | cons c rest ih => cases c <;> simp [producersOf, ih]

theorem checkDomains_snd_sublist (env : Env) (hn : Option String) (l : List Candidate) :
    List.Sublist (checkDomains env hn l).2 (producersOf l) := by
  induction l with
  | nil => simp [checkDomains, producersOf]
  | cons c rest ih =>
    cases c with
    | lit s =>
      by_cases hm : hn = some s
      · simp [checkDomains, hm, producersOf]
      · simpa [checkDomains, hm, producersOf] using ih
    | producer p =>
      cases hrp : runProducer env p with
      | none => simpa [checkDomains, hrp, producersOf] using ih
      | some d =>
        by_cases hm : hn = some d
        · simp [checkDomains, hrp, hm, producersOf]
        · simpa [checkDomains, hrp, hm, producersOf] using ih

theorem checkDomains_snd_match (env : Env) (hn : Option String) :
    ∀ (l₁ : List Candidate) (c : Candidate) (l₂ : List Candidate),
      candMatches env hn c = true →
      List.Sublist (checkDomains env hn (l₁ ++ c :: l₂)).2 (producersOf (l₁ ++ [c])) := by
  intro l₁
  induction l₁ with
  | nil =>
    intro c l₂ hm
    cases c with
    | lit s =>
      have h : hn = some s := by simpa [candMatches, candValue] using hm
      simp [checkDomains, h, producersOf]
    | producer p =>
      cases hrp : runProducer env p with
      | none => simp [candMatches, candValue, hrp] at hm
      | some d =>
        have h : hn = some d := by simpa [candMatches, candValue, hrp] using hm
        simp [checkDomains, hrp, h, producersOf]
  | cons a rest ih =>
    intro c l₂ hm
    have ih' := ih c l₂ hm
    cases a with
    | lit s =>
      by_cases hms : hn = some s
      · simp [checkDomains, hms, producersOf]
      · simpa [checkDomains, hms, producersOf] using ih'
    | producer p =>
      cases hrp : runProducer env p with
      | none => simpa [checkDomains, hrp, producersOf] using ih'
      | some d =>
        by_cases hmd : hn = some d
        · simp [checkDomains, hrp, hmd, producersOf]
        · simpa [checkDomains, hrp, hmd, producersOf] using ih'

/-- C4: when `server.enableCORS` is false, `is_url_from_allowed_origins`
returns true for every URL, whatever its contents. -/
theorem cors_disabled_allows_all (env : Env) (url : String)
    (h : env.cfg.server_enableCORS = false) :
    is_url_from_allowed_origins env url = true := by
  simp [is_url_from_allowed_origins, is_url_from_allowed_origins_with, h]

/-- C4 (witness): with CORS disabled even a hostile origin is allowed. -/
theorem cors_disabled_allows_all_witness :
    envCorsOff.cfg.server_enableCORS = false ∧
    is_url_from_allowed_origins envCorsOff "http://evil.example.com" = true :=
  ⟨rfl, cors_disabled_allows_all envCorsOff "http://evil.example.com" rfl⟩

/-- C5: every URL whose extracted hostname is exactly `localhost`, `0.0.0.0`
or `127.0.0.1` is allowed, whatever the CORS setting, the rest of the
configuration, and the network state. -/
theorem localhost_always_allowed (env : Env) (url : String)
    (h : env.get_hostname url = some "localhost" ∨ env.get_hostname url = some "0.0.0.0" ∨
      env.get_hostname url = some "127.0.0.1") :
    is_url_from_allowed_origins env url = true := by
  rcases h with h | h | h <;>
    simp [is_url_from_allowed_origins, is_url_from_allowed_origins_with, checkDomains_fst,
      allowed_domains, candMatches, candValue, h]

/-- C5 (witness): a concrete localhost URL in a CORS-enabled environment. -/
theorem localhost_always_allowed_witness :
    envLocalhost.get_hostname "http://localhost:8501" = some "localhost" ∧
    envLocalhost.cfg.server_enableCORS = true ∧
    is_url_from_allowed_origins envLocalhost "http://localhost:8501" = true :=
  ⟨rfl, rfl, localhost_always_allowed envLocalhost "http://localhost:8501" (Or.inl rfl)⟩

/-- C6: each configuration-derived lazy candidate — the manually-configured
server address, the storage-URL host, and the configured storage bucket —
evaluates to an absent value when its configuration option was never
explicitly set. -/
theorem unset_config_producers_absent (env : Env) :
    (env.cfg.browser_serverAddress = none → runProducer env .serverAddress = none) ∧
    (env.cfg.s3_url = none → runProducer env .s3UrlHost = none) ∧
    (env.cfg.s3_bucket = none → runProducer env .s3Bucket = none) := by
  refine ⟨fun h => ?_, fun h => ?_, fun h => ?_⟩ <;>
    simp [runProducer, _get_server_address_if_manually_set,
      _get_s3_url_host_if_manually_set, h]

/-- C6 (witness): in an environment where none of the three options was set,
all three producers evaluate to `none`. -/
theorem unset_config_producers_absent_witness :
    envNoHost.cfg.browser_serverAddress = none ∧ envNoHost.cfg.s3_url = none ∧
    envNoHost.cfg.s3_bucket = none ∧
    runProducer envNoHost .serverAddress = none ∧
    runProducer envNoHost .s3UrlHost = none ∧
    runProducer envNoHost .s3Bucket = none := by
  have h := unset_config_producers_absent envNoHost
  exact ⟨rfl, rfl, rfl, h.1 rfl, h.2.1 rfl, h.2.2 rfl⟩

/-- C7: hostname extraction is total in the model (`none` on malformed input,
so no exception escapes), and when CORS is enabled and the hostname resolves
to absent, no candidate matches and the validator returns false. -/
theorem no_hostname_returns_false (env : Env) (url : String)
    (hc : env.cfg.server_enableCORS = true) (hh : env.get_hostname url = none) :
    is_url_from_allowed_origins env url = false := by
  simp [is_url_from_allowed_origins, is_url_from_allowed_origins_with, hc, hh,
    checkDomains_none_false]

/-- C7 (witness): a CORS-enabled environment in which URL parsing fails. -/
theorem no_hostname_returns_false_witness :
    envNoHost.cfg.server_enableCORS = true ∧
    envNoHost.get_hostname "http://random-host.test" = none ∧
    is_url_from_allowed_origins envNoHost "http://random-host.test" = false :=
  ⟨rfl, rfl, no_hostname_returns_false envNoHost "http://random-host.test" rfl rfl⟩

/-- C8: the candidate scan short-circuits — the producers invoked during one
call are pairwise distinct (each lazy producer runs at most once), and for
every decomposition of `allowed_domains` around a matching candidate, no
producer occurring after that candidate is ever invoked. -/
theorem origin_candidates_short_circuit (env : Env) (url : String) :
    (origin_check_invoked env url).Nodup ∧
    (∀ (l₁ : List Candidate) (c : Candidate) (l₂ : List Candidate),
      allowed_domains = l₁ ++ c :: l₂ →
      candMatches env (env.get_hostname url) c = true →
      ∀ p, p ∈ producersOf l₂ → p ∉ origin_check_invoked env url) := by
  by_cases hc : env.cfg.server_enableCORS
  case neg =>
    have htr : origin_check_invoked env url = [] := by
      simp [origin_check_invoked, hc]
    rw [htr]
    exact ⟨List.nodup_nil, fun _ _ _ _ _ _ _ => by simp⟩
  case pos =>
    have htr : origin_check_invoked env url
        = (checkDomains env (env.get_hostname url) allowed_domains).2 := by
      simp [origin_check_invoked, hc]
    rw [htr]
    have hnd : (producersOf allowed_domains).Nodup := by decide
    constructor
    · exact List.Sublist.nodup
        (checkDomains_snd_sublist env (env.get_hostname url) allowed_domains) hnd
    · intro l₁ c l₂ hdecomp hm p hp hptr
      have hsub := checkDomains_snd_match env (env.get_hostname url) l₁ c l₂ hm
      rw [← hdecomp] at hsub
      rw [hdecomp] at hnd
      have hsplit : l₁ ++ c :: l₂ = (l₁ ++ [c]) ++ l₂ := by simp
      rw [hsplit, producersOf_append] at hnd
      exact List.disjoint_of_nodup_append hnd (hsub.subset hptr) hp

/-- C8 (witness): in `envServerAddr` the fourth candidate (the manually-set
server address) matches, and the external-IP producer, which occurs later, is
not invoked; the invocation list is duplicate-free. -/
theorem origin_candidates_short_circuit_witness :
    (origin_check_invoked envServerAddr "http://my-host/path").Nodup ∧
    candMatches envServerAddr (envServerAddr.get_hostname "http://my-host/path")
      (.producer .serverAddress) = true ∧
    Producer.externalIp ∉ origin_check_invoked envServerAddr "http://my-host/path" := by
  have hm : candMatches envServerAddr (envServerAddr.get_hostname "http://my-host/path")
      (.producer .serverAddress) = true := by decide
  have h := origin_candidates_short_circuit envServerAddr "http://my-host/path"
  exact ⟨h.1, hm,
    h.2 [.lit "localhost", .lit "0.0.0.0", .lit "127.0.0.1"] (.producer .serverAddress)
      [.producer .s3UrlHost, .producer .internalIp, .producer .externalIp, .producer .s3Bucket]
      rfl hm .externalIp (by decide)⟩

/-- C9: the boolean result of the origin check does not depend on the order of
the candidate list — scanning any permutation of `allowed_domains` yields the
same result as `is_url_from_allowed_origins`. -/
theorem origin_check_order_irrelevant (env : Env) (url : String) (domains : List Candidate)
    (hperm : domains.Perm allowed_domains) :
    is_url_from_allowed_origins_with env url domains = is_url_from_allowed_origins env url := by
  have hmain : (checkDomains env (env.get_hostname url) domains).1
      = (checkDomains env (env.get_hostname url) allowed_domains).1 := by
    rw [checkDomains_fst, checkDomains_fst, List.any_eq, List.any_eq]
    exact decide_eq_decide.mpr
      ⟨fun ⟨x, hx, hp⟩ => ⟨x, hperm.mem_iff.mp hx, hp⟩,
       fun ⟨x, hx, hp⟩ => ⟨x, hperm.mem_iff.mpr hx, hp⟩⟩
  unfold is_url_from_allowed_origins is_url_from_allowed_origins_with
  rw [hmain]

/-- C9 (witness): the fully reversed candidate list gives the same verdict. -/
theorem origin_check_order_irrelevant_witness :
    (allowed_domains.reverse).Perm allowed_domains ∧
    is_url_from_allowed_origins_with envServerAddr "http://my-host/path"
        allowed_domains.reverse
      = is_url_from_allowed_origins envServerAddr "http://my-host/path" :=
  ⟨allowed_domains.reverse_perm,
   origin_check_order_irrelevant envServerAddr "http://my-host/path"
     allowed_domains.reverse allowed_domains.reverse_perm⟩

end StreamlitServerUtil
